import Mathlib

/-!
Verification of the Mooney-Rivlin membrane term
(`sfepy/terms/terms_membrane.py`).

The numerical code is vectorized numpy: every array carries leading
`(element, quadrature point)` axes and all arithmetic is elementwise over
those axes.  We embed arrays as functions of the leading indices
(`el qp : Nat`) followed by the trailing tensor indices, over an arbitrary
field `K` (instantiated at `Rat` for concrete evaluation and at `Real`
where derivatives are stated).  Since `eval_membrane_mooney_rivlin`
contains no division, a `Field` is only needed for the derivative
statements.
-/

namespace SfepyMembrane

section Constitutive

variable {K : Type} [Field K]

/-- Pointwise (per element, per quadrature point) form of the mode-0 branch of
`eval_membrane_mooney_rivlin` (terms_membrane.py lines 18-35): `a1c`, `a2c`
are the first coefficients `a1[..., 0, 0]`, `a2[..., 0, 0]`; `c11 c12 c22`
are the in-plane Cauchy-Green entries of `mtx_c` and `c33` the out-of-plane
stretch.  Index `i` ranges over the `sym = 3` packed components
S11, S22, S12; entries the code never writes are 0 here (numpy leaves them
uninitialized). -/
def membrane_stress (a1c a2c c11 c12 c22 c33 : K) (i : Nat) : K :=
  let a12 := 2 * a1c
  let a22 := 2 * a2c
  let pressure := c33 * (a12 + a22 * (c11 + c22))
  match i with
  | 0 => -pressure * c22 * c33 + a12 + a22 * (c22 + c33)
  | 1 => -pressure * c11 * c33 + a12 + a22 * (c11 + c33)
  | 2 => pressure * c12 * c33 - a22 * c12
  | _ => 0

/-- Pointwise form of the mode-1 (tangent stiffness) branch of
`eval_membrane_mooney_rivlin` (terms_membrane.py lines 37-74).  The diagonal
and lower-triangular entries are the computed formulas; the upper triangle
is obtained by mirroring the lower one, exactly as lines 61-63 do
(`out[..., 0, 1] = out[..., 1, 0]` etc.). -/
def membrane_tangent (a1c a2c c11 c12 c22 c33 : K) (i j : Nat) : K :=
  let a12 := 2 * a1c
  let a22 := 2 * a2c
  let pressure := c33 * (a12 + a22 * (c11 + c22))
  let dp11 := a22 * c33 - pressure * c22 * c33
  let dp22 := a22 * c33 - pressure * c11 * c33
  let dp12 := 2 * pressure * c12 * c33
  let d11 := -(2 : K) * ((a22 - pressure * c22) * c22 * c33 ^ 2
               + c33 * c22 * dp11)
  let d22 := -(2 : K) * ((a22 - pressure * c11) * c11 * c33 ^ 2
               + c33 * c11 * dp22)
  let d33 := -a22 + pressure * (c33 + 2 * c12 ^ 2 * c33 ^ 2)
               + c12 * c33 * dp12
  let d21 := 2 * ((a22 - pressure * c33
               - (a22 - pressure * c11) * c22 * c33 ^ 2)
               - c33 * c11 * dp11)
  let d31 := 2 * (-pressure * c12 * c22 * c33 ^ 2 + c12 * c33 * dp11)
  let d32 := 2 * (-pressure * c12 * c11 * c33 ^ 2 + c12 * c33 * dp22)
  match i, j with
  | 0, 0 => d11
  | 1, 1 => d22
  | 2, 2 => d33
  | 1, 0 => d21
  | 2, 0 => d31
  | 2, 1 => d32
  | 0, 1 => d21
  | 0, 2 => d31
  | 1, 2 => d32
  | _, _ => 0

/-- Shallow embedding of `eval_membrane_mooney_rivlin` (terms_membrane.py
lines 10-74).  The material arrays `a1`, `a2` and the strain array `mtx_c`
are functions of `(el, qp, row, col)`; `c33` of `(el, qp)`.  The code reads
only `a1[..., 0, 0]`, `a2[..., 0, 0]` and the `(0,0)`, `(0,1)`, `(1,1)`
entries of `mtx_c`, computes `pressure`, and fills a `(sym, 1)` stress
block when `mode == 0` and a `(sym, sym)` tangent block otherwise
(`sym = dim2sym(2) = 3`). -/
def eval_membrane_mooney_rivlin (a1 a2 mtx_c : Nat → Nat → Nat → Nat → K)
    (c33 : Nat → Nat → K) (mode : Nat) (el qp i j : Nat) : K :=
  if mode = 0 then
    if j = 0 then
      membrane_stress (a1 el qp 0 0) (a2 el qp 0 0)
        (mtx_c el qp 0 0) (mtx_c el qp 0 1) (mtx_c el qp 1 1) (c33 el qp) i
    else 0
  else
    membrane_tangent (a1 el qp 0 0) (a2 el qp 0 0)
      (mtx_c el qp 0 0) (mtx_c el qp 0 1) (mtx_c el qp 1 1) (c33 el qp) i j

/-- The stress components exactly as the specification states them
(spec §4.4, mode 0), written independently of the code-side definitions:
`a12 = 2*a1`, `a22 = 2*a2`, `pressure = c33*(a12 + a22*(C11+C22))`,
S11 = -pressure*C22*C33 + a12 + a22*(C22+C33),
S22 = -pressure*C11*C33 + a12 + a22*(C11+C33),
S12 = pressure*C12*C33 - a22*C12. -/
def spec_stress (a1c a2c c11 c12 c22 c33 : K) (i : Nat) : K :=
  if i = 0 then
    -(c33 * (2 * a1c + 2 * a2c * (c11 + c22))) * c22 * c33
      + 2 * a1c + 2 * a2c * (c22 + c33)
  else if i = 1 then
    -(c33 * (2 * a1c + 2 * a2c * (c11 + c22))) * c11 * c33
      + 2 * a1c + 2 * a2c * (c11 + c33)
  else if i = 2 then
    c33 * (2 * a1c + 2 * a2c * (c11 + c22)) * c12 * c33 - 2 * a2c * c12
  else 0

end Constitutive

section ConstitutiveTheorems

variable {K : Type} [Field K]

/-- C1: for every input batch and mode 0, every packed stress component
returned by `eval_membrane_mooney_rivlin` is exactly the closed-form
expression stated in the specification (with `a12 = 2*a1[...,0,0]`,
`a22 = 2*a2[...,0,0]`, `pressure = c33*(a12 + a22*(C11+C22))`). -/
theorem mr_stress_components (a1 a2 mtx_c : Nat → Nat → Nat → Nat → K)
    (c33 : Nat → Nat → K) (el qp i : Nat) :
    eval_membrane_mooney_rivlin a1 a2 mtx_c c33 0 el qp i 0 =
      spec_stress (a1 el qp 0 0) (a2 el qp 0 0)
        (mtx_c el qp 0 0) (mtx_c el qp 0 1) (mtx_c el qp 1 1) (c33 el qp) i := by
  match i with
  | 0 => rfl
  | 1 => rfl
  | 2 => rfl
  | n + 3 => rfl

/-- C3: the mode-1 tangent block is symmetric; the upper triangle is the
mirror of the computed lower-triangular entries (lines 61-63 of the code),
so `D[i][j] = D[j][i]` for all indices. -/
theorem mr_tangent_symmetric (a1 a2 mtx_c : Nat → Nat → Nat → Nat → K)
    (c33 : Nat → Nat → K) (el qp : Nat) (i j : Fin 3) :
    eval_membrane_mooney_rivlin a1 a2 mtx_c c33 1 el qp i j =
      eval_membrane_mooney_rivlin a1 a2 mtx_c c33 1 el qp j i := by
  fin_cases i <;> fin_cases j <;> rfl

/-- C4: at the zero-displacement state, where the in-plane Cauchy-Green
block is the identity (C11 = C22 = 1, C12 = 0) and c33 = 1, the mode-0
stress vanishes for every pair of material coefficients. -/
theorem mr_zero_strain_zero_stress (a1 a2 mtx_c : Nat → Nat → Nat → Nat → K)
    (c33 : Nat → Nat → K) (el qp : Nat)
    (h11 : mtx_c el qp 0 0 = 1) (h12 : mtx_c el qp 0 1 = 0)
    (h22 : mtx_c el qp 1 1 = 1) (h33 : c33 el qp = 1) (i : Nat) :
    eval_membrane_mooney_rivlin a1 a2 mtx_c c33 0 el qp i 0 = 0 := by
  have h := mr_stress_components a1 a2 mtx_c c33 el qp i
  rw [h, h11, h12, h22, h33, spec_stress]
  split
  · ring
  · split
    · ring
    · split
      · ring
      · rfl

/-- C8: the outputs of `eval_membrane_mooney_rivlin` depend on the material
arrays `a1`, `a2` only through their first coefficients `[..., 0, 0]`: two
pairs of material arrays agreeing there give identical outputs in every
mode, at every entry. -/
theorem mr_first_coefficient_only (a1 b1 a2 b2 mtx_c : Nat → Nat → Nat → Nat → K)
    (c33 : Nat → Nat → K) (mode el qp : Nat)
    (h1 : a1 el qp 0 0 = b1 el qp 0 0) (h2 : a2 el qp 0 0 = b2 el qp 0 0)
    (i j : Nat) :
    eval_membrane_mooney_rivlin a1 a2 mtx_c c33 mode el qp i j =
      eval_membrane_mooney_rivlin b1 b2 mtx_c c33 mode el qp i j := by
  unfold eval_membrane_mooney_rivlin
  rw [h1, h2]

end ConstitutiveTheorems

section ConstitutiveWitnesses

/-- Concrete material array: first coefficient 3, junk 5 elsewhere. -/
def wA1 : Nat → Nat → Nat → Nat → Rat := fun _ _ i j =>
  if i = 0 ∧ j = 0 then 3 else 5

/-- Concrete material array agreeing with `wA1` at `[..., 0, 0]` only. -/
def wB1 : Nat → Nat → Nat → Nat → Rat := fun _ _ i j =>
  if i = 0 ∧ j = 0 then 3 else 7

/-- Concrete material array: first coefficient 2, junk 11 elsewhere. -/
def wA2 : Nat → Nat → Nat → Nat → Rat := fun _ _ i j =>
  if i = 0 ∧ j = 0 then 2 else 11

/-- Concrete material array agreeing with `wA2` at `[..., 0, 0]` only. -/
def wB2 : Nat → Nat → Nat → Nat → Rat := fun _ _ i j =>
  if i = 0 ∧ j = 0 then 2 else 13

/-- Concrete in-plane Cauchy-Green batch with C11 = a, C12 = b, C22 = c. -/
def wC (a b c : Rat) : Nat → Nat → Nat → Nat → Rat := fun _ _ i j =>
  if i = 0 ∧ j = 0 then a else if i = 0 ∧ j = 1 then b
  else if i = 1 ∧ j = 1 then c else 0

/-- Constant c33 batch. -/
def wC33 (x : Rat) : Nat → Nat → Rat := fun _ _ => x

/-- Witness for C4: at the concrete identity strain state the first stress
component evaluates to zero. -/
theorem mr_zero_strain_zero_stress_witness :
    eval_membrane_mooney_rivlin wA1 wA2 (wC 1 0 1) (wC33 1) 0 0 0 0 0 = 0 :=
  mr_zero_strain_zero_stress wA1 wA2 (wC 1 0 1) (wC33 1) 0 0
    rfl rfl rfl rfl 0

/-- Witness for C8: concrete material arrays differing outside `[...,0,0]`
give the same tangent entry. -/
theorem mr_first_coefficient_only_witness :
    eval_membrane_mooney_rivlin wA1 wA2 (wC 2 1 3) (wC33 4) 1 0 0 0 0 =
      eval_membrane_mooney_rivlin wB1 wB2 (wC 2 1 3) (wC33 4) 1 0 0 0 0 :=
  mr_first_coefficient_only wA1 wB1 wA2 wB2 (wC 2 1 3) (wC33 4) 1 0 0
    rfl rfl 0 0

end ConstitutiveWitnesses

section CallModel

/-- Fatal signals raised by the term evaluation: `assertionError` is the
failure of `assert_` (sfepy.base.base), `stopIteration` the explicit
`raise StopIteration` of `get_shape`, `nameError` the Python NameError hit
when the post-processing branch reaches its final `yield` without the loop
having bound `out1`. -/
inductive FatalError where
  | assertionError
  | stopIteration
  | nameError
deriving DecidableEq

/-- The two post-processing term modes accepted by `__call__`
(`term_mode in ['strain', 'stress']`). -/
inductive PostMode where
  | strain
  | stress
deriving DecidableEq

/-- Modelled from the spec: `assert_` (imported from sfepy.base.base, not
under src/) raises on a false condition; precondition violations are fatal
and reported immediately to the caller. -/
def assert_ (p : Prop) [Decidable p] : Except FatalError Unit :=
  if p then Except.ok () else Except.error FatalError.assertionError

/-- Embedding of `TLMembraneTerm.get_shape` (lines 119-131).  `dim` and
`n_ep` come from the external `ap.get_s_data_shape`; argument names are
embedded as naturals, `state_name` being `self.get_arg_name('state')`.
The returned pair is (shape, mode). -/
def get_shape (dim n_ep chunk_size state_name : Nat) (diff_var : Option Nat) :
    Except FatalError ((Nat × Nat × Nat × Nat) × Nat) := do
  let _ ← assert_ (dim = 3)
  match diff_var with
  | none => Except.ok ((chunk_size, 1, dim * n_ep, 1), 0)
  | some v =>
      if v = state_name then
        Except.ok ((chunk_size, 1, dim * n_ep, dim * n_ep), 1)
      else
        Except.error FatalError.stopIteration

/-- Modelled from the spec: `geo.integrate_chunk` (external mapping object)
integrates the quadrature contributions of each element of the chunk into
that element's own output row; rows of distinct elements are independent.
A chunk result is therefore the list of (element index, per-element value)
pairs, where `elemVal` composes quadrature integration with the subsequent
local-to-global rotation of that element's block. -/
def integrate_chunk {V : Type} (elemVal : Nat → V) (lchunk : List Nat) :
    List (Nat × V) :=
  lchunk.map (fun e => (e, elemVal e))

/-- Embedding of the control flow of `TLMembraneTerm.__call__`
(lines 133-233) over abstract per-element payloads.  `chunks` is the
partition of the element batch produced by the external `self.char_fun`
(modelled from the spec: chunking is a pure processing-granularity concept).
With `term_mode = none` the code yields one integrated result per chunk
(residual rows for mode 0, tangent blocks otherwise, both per-element, here
`resVal` / `tanVal`).  With `term_mode` strain or stress the chunk loop only
overwrites the `out1` buffer and the single `yield` at line 233 sits after
the loop, so only the final chunk is reported; with no chunk at all that
`yield` reads the never-bound `out1` (NameError). -/
def tl_membrane_call {V : Type} (dim n_ep chunk_size state_name : Nat)
    (diff_var : Option Nat) (term_mode : Option PostMode)
    (resVal tanVal strainVal stressVal : Nat → V)
    (chunks : List (List Nat)) : Except FatalError (List (List (Nat × V))) := do
  let sm ← get_shape dim n_ep chunk_size state_name diff_var
  match term_mode with
  | none =>
      if sm.2 = 0 then
        Except.ok (chunks.map (integrate_chunk resVal))
      else
        Except.ok (chunks.map (integrate_chunk tanVal))
  | some pm =>
      let outVal := match pm with
        | PostMode.strain => strainVal
        | PostMode.stress => stressVal
      match chunks.getLast? with
      | none => Except.error FatalError.nameError
      | some last => Except.ok [integrate_chunk outVal last]

end CallModel

section CacheModel

/-- The three per-element-group caches of `TLMembraneTerm`. -/
structure MembraneCaches (T M B : Type) where
  mtx_t : Nat → Option T
  membrane_geo : Nat → Option M
  bfg : Nat → Option B

/-- Lines 93-95 of `__init__`: every cache starts as None for every group. -/
def initCaches (T M B : Type) : MembraneCaches T M B :=
  ⟨fun _ => none, fun _ => none, fun _ => none⟩

/-- Modelled from the spec: `describe_membrane_geometry` (lines 97-117)
fills the three caches for group `ig` from the group geometry using the
external membranes helpers (`create_transformation_matrix`,
`create_mapping`, `get_mapping`), here abstracted as pure functions
`fT`, `fM`, `fB` of the group index. -/
def describe_membrane_geometry {T M B : Type} (fT : Nat → T) (fM : Nat → M)
    (fB : Nat → B) (ig : Nat) (s : MembraneCaches T M B) :
    MembraneCaches T M B where
  mtx_t := Function.update s.mtx_t ig (some (fT ig))
  membrane_geo := Function.update s.membrane_geo ig (some (fM ig))
  bfg := Function.update s.bfg ig (some (fB ig))

/-- Lines 142-148 of `__call__`: if the `mtx_t` cache of the current group
is still None, compute the geometry, then read all three cached values.
`__call__` receives `diff_var` and `term_mode`, but this step ignores them:
it runs identically in every evaluation mode.  Returns the new cache state
and the values `(mtx_t, bfg, geo)` the rest of the call uses. -/
def tl_membrane_geometry_step {T M B : Type} (fT : Nat → T) (fM : Nat → M)
    (fB : Nat → B) (ig : Nat) (_diff_var : Option Nat)
    (_term_mode : Option PostMode) (s : MembraneCaches T M B) :
    MembraneCaches T M B × (Option T × Option B × Option M) :=
  let s1 := if (s.mtx_t ig).isNone then describe_membrane_geometry fT fM fB ig s
            else s
  (s1, (s1.mtx_t ig, s1.bfg ig, s1.membrane_geo ig))

end CacheModel

section CallTheorems

/-- C6: a differentiation-variable request that is neither None nor the
state argument name makes `get_shape` raise its unsupported-request signal
(StopIteration), and the whole evaluation aborts with that fatal signal
before producing any result. -/
theorem tl_membrane_bad_diff_var_fatal {V : Type} (n_ep chunk_size state_name v : Nat)
    (term_mode : Option PostMode) (resVal tanVal strainVal stressVal : Nat → V)
    (chunks : List (List Nat)) (hv : v ≠ state_name) :
    get_shape 3 n_ep chunk_size state_name (some v)
        = Except.error FatalError.stopIteration ∧
    tl_membrane_call 3 n_ep chunk_size state_name (some v) term_mode
        resVal tanVal strainVal stressVal chunks
        = Except.error FatalError.stopIteration := by
  constructor
  · simp only [get_shape, assert_, hv, if_false, ite_false]
    rfl
  · simp only [tl_membrane_call, get_shape, assert_, hv, if_false, ite_false]
    rfl

/-- Witness for C6: concrete bad request `diff_var = some 1` against state
name 0 aborts the evaluation. -/
theorem tl_membrane_bad_diff_var_fatal_witness :
    tl_membrane_call 3 4 10 0 (some 1) none
        (fun e => e) (fun e => e) (fun e => e) (fun e => e) [[0, 1]]
        = Except.error FatalError.stopIteration :=
  (tl_membrane_bad_diff_var_fatal 4 10 0 1 none
    (fun e => e) (fun e => e) (fun e => e) (fun e => e) [[0, 1]]
    (by decide)).2

/-- C10: whenever the spatial dimension reported by the approximation is
not 3, the `assert_` at line 122 fails: `get_shape` raises before returning
any shape, and the whole call aborts with the assertion signal, so no
residual or tangent output is ever produced for non-3-D data. -/
theorem tl_membrane_dim_assert {V : Type} (dim n_ep chunk_size state_name : Nat)
    (diff_var : Option Nat) (term_mode : Option PostMode)
    (resVal tanVal strainVal stressVal : Nat → V)
    (chunks : List (List Nat)) (hdim : dim ≠ 3) :
    get_shape dim n_ep chunk_size state_name diff_var
        = Except.error FatalError.assertionError ∧
    tl_membrane_call dim n_ep chunk_size state_name diff_var term_mode
        resVal tanVal strainVal stressVal chunks
        = Except.error FatalError.assertionError := by
  constructor
  · simp only [get_shape, assert_, hdim, if_false, ite_false]
    rfl
  · simp only [tl_membrane_call, get_shape, assert_, hdim, if_false, ite_false]
    rfl

/-- Witness for C10: a 2-D batch aborts with the assertion signal. -/
theorem tl_membrane_dim_assert_witness :
    tl_membrane_call 2 4 10 0 none none
        (fun e => e) (fun e => e) (fun e => e) (fun e => e) [[0]]
        = Except.error FatalError.assertionError :=
  (tl_membrane_dim_assert 2 4 10 0 none none
    (fun e => e) (fun e => e) (fun e => e) (fun e => e) [[0]]
    (by decide)).2

/-- C9: in the strain and stress post-processing modes the call yields
exactly one result tuple, built from the buffers of the last chunk only,
however the (nonempty) element batch was partitioned. -/
theorem tl_membrane_postproc_last_chunk_only {V : Type}
    (n_ep chunk_size state_name : Nat) (pm : PostMode)
    (resVal tanVal strainVal stressVal : Nat → V)
    (chunks : List (List Nat)) (h : chunks ≠ []) :
    tl_membrane_call 3 n_ep chunk_size state_name none (some pm)
        resVal tanVal strainVal stressVal chunks
      = Except.ok [integrate_chunk
          (match pm with
           | PostMode.strain => strainVal
           | PostMode.stress => stressVal)
          (chunks.getLast h)] := by
  simp only [tl_membrane_call, get_shape, assert_,
    List.getLast?_eq_getLast_of_ne_nil h, if_true, ite_true]
  rfl

/-- Witness for C9: a concrete two-chunk stress evaluation yields one tuple
holding only the second chunk. -/
theorem tl_membrane_postproc_last_chunk_only_witness :
    tl_membrane_call 3 4 1 0 none (some PostMode.stress)
        (fun e => e) (fun e => e) (fun e => e) (fun e => 10 * e)
        [[0], [1]]
      = Except.ok [[(1, 10)]] := by
  have h := tl_membrane_postproc_last_chunk_only 4 1 0 PostMode.stress
    (fun e => e) (fun e => e) (fun e => e) (fun e => 10 * e)
    [[0], [1]] (by decide)
  simpa [integrate_chunk] using h

/-- C5 (divergence demonstration): partitioning the same two-element batch
into one chunk versus two chunks changes the yielded output of a stress
post-processing evaluation.  With chunks `[[0], [1]]` the single yielded
tuple covers only element 1 - element 0 is never reported - while the
single chunk `[[0, 1]]` covers both elements, contradicting chunk-size
independence. -/
theorem tl_membrane_postproc_chunk_dependent :
    tl_membrane_call 3 4 1 0 none (some PostMode.stress)
        (fun e => e) (fun e => e) (fun e => e) (fun e => e) [[0], [1]]
      = Except.ok [[(1, 1)]] ∧
    tl_membrane_call 3 4 2 0 none (some PostMode.stress)
        (fun e => e) (fun e => e) (fun e => e) (fun e => e) [[0, 1]]
      = Except.ok [[(0, 0), (1, 1)]] := by
  constructor <;> rfl

/-- C7: geometry caching.  A first call on group `ig` (caches all None, as
`__init__` leaves them) computes and stores the transform, mapping and
base-function gradients; any later call - whatever its differentiation
variable or term mode - leaves the caches untouched and uses exactly the
stored values. -/
theorem tl_membrane_geometry_cached_once {T M B : Type} (fT : Nat → T)
    (fM : Nat → M) (fB : Nat → B) (ig : Nat) (dv : Option Nat)
    (tm : Option PostMode) :
    (tl_membrane_geometry_step fT fM fB ig dv tm (initCaches T M B)).1.mtx_t ig
        = some (fT ig) ∧
    (tl_membrane_geometry_step fT fM fB ig dv tm (initCaches T M B)).1.membrane_geo ig
        = some (fM ig) ∧
    (tl_membrane_geometry_step fT fM fB ig dv tm (initCaches T M B)).1.bfg ig
        = some (fB ig) ∧
    (tl_membrane_geometry_step fT fM fB ig dv tm (initCaches T M B)).2
        = (some (fT ig), some (fB ig), some (fM ig)) ∧
    ∀ (dv2 : Option Nat) (tm2 : Option PostMode),
      tl_membrane_geometry_step fT fM fB ig dv2 tm2
          (tl_membrane_geometry_step fT fM fB ig dv tm (initCaches T M B)).1
        = ((tl_membrane_geometry_step fT fM fB ig dv tm (initCaches T M B)).1,
           (some (fT ig), some (fB ig), some (fM ig))) := by
  refine ⟨?_, ?_, ?_, ?_, ?_⟩ <;>
    simp [tl_membrane_geometry_step, describe_membrane_geometry, initCaches,
      Function.update]

end CallTheorems

section TangentJacobian

/-- The batched evaluator is exactly the pointwise constitutive core at
each element and quadrature point, in both modes. -/
theorem eval_membrane_pointwise {K : Type} [Field K]
    (a1 a2 mtx_c : Nat → Nat → Nat → Nat → K) (c33 : Nat → Nat → K)
    (el qp i j : Nat) :
    eval_membrane_mooney_rivlin a1 a2 mtx_c c33 0 el qp i 0
      = membrane_stress (a1 el qp 0 0) (a2 el qp 0 0) (mtx_c el qp 0 0)
          (mtx_c el qp 0 1) (mtx_c el qp 1 1) (c33 el qp) i ∧
    eval_membrane_mooney_rivlin a1 a2 mtx_c c33 1 el qp i j
      = membrane_tangent (a1 el qp 0 0) (a2 el qp 0 0) (mtx_c el qp 0 0)
          (mtx_c el qp 0 1) (mtx_c el qp 1 1) (c33 el qp) i j :=
  ⟨rfl, rfl⟩

/-- In-plane Cauchy-Green batch whose (0,0) entry is the identity block
perturbed to `t`: C11 = t, C12 = 0, C22 = 1 (constant over the batch). -/
def cexC (t : Real) : Nat → Nat → Nat → Nat → Real := fun _ _ i j =>
  if i = 0 ∧ j = 0 then t else if i = j then 1 else 0

/-- C2 (counterexample): the mode-1 tangent entry D[0][0] is NOT the
partial derivative of the mode-0 stress S[0] in C11 with c33 held fixed.
At a1 = 1, a2 = 0, mtx_c = identity block, c33 = 1, the stress component
S11 is constant in C11 (derivative 0), while the code returns D[0][0] = 8. -/
theorem mr_tangent_not_fixed_c33_jacobian :
    ¬ HasDerivAt
        (fun t : Real => eval_membrane_mooney_rivlin
          (fun _ _ _ _ => 1) (fun _ _ _ _ => 0) (cexC t) (fun _ _ => 1) 0 0 0 0 0)
        (eval_membrane_mooney_rivlin
          (fun _ _ _ _ => (1 : Real)) (fun _ _ _ _ => 0) (cexC 1) (fun _ _ => 1)
          1 0 0 0 0) 1 := by
  intro hD
  have hfun : (fun t : Real => eval_membrane_mooney_rivlin
      (fun _ _ _ _ => (1 : Real)) (fun _ _ _ _ => 0) (cexC t) (fun _ _ => 1) 0 0 0 0 0)
      = fun _ => (0 : Real) := by
    funext t
    show membrane_stress 1 0 t 0 1 1 0 = 0
    norm_num [membrane_stress]
  have h0 : HasDerivAt (fun t : Real => eval_membrane_mooney_rivlin
      (fun _ _ _ _ => (1 : Real)) (fun _ _ _ _ => 0) (cexC t) (fun _ _ => 1) 0 0 0 0 0)
      0 1 := by
    rw [hfun]
    exact hasDerivAt_const 1 0
  have h8 : eval_membrane_mooney_rivlin
      (fun _ _ _ _ => (1 : Real)) (fun _ _ _ _ => 0) (cexC 1) (fun _ _ => 1)
      1 0 0 0 0 = 8 := by
    show membrane_tangent 1 0 1 0 1 1 0 0 = 8
    norm_num [membrane_tangent]
  have huniq := h0.unique hD
  rw [h8] at huniq
  norm_num at huniq

/-- Derivative in C11, along the plane-stress closure c33 = 1/(C11*C22 -
C12^2), of the first stress component; helper for the amended C2. -/
theorem hasDerivAt_S0_c11 (a1c a2c c11 c12 c22 : Real)
    (h : c11 * c22 - c12 ^ 2 ≠ 0) :
    HasDerivAt
      (fun t : Real => membrane_stress a1c a2c t c12 c22 ((t * c22 - c12 ^ 2)⁻¹) 0)
      (membrane_tangent a1c a2c c11 c12 c22 ((c11 * c22 - c12 ^ 2)⁻¹) 0 0 / 2)
      c11 := by
  have hJ : HasDerivAt (fun t : Real => t * c22 - c12 ^ 2) (1 * c22) c11 :=
    ((hasDerivAt_id c11).mul_const c22).sub_const (c12 ^ 2)
  have hg := hJ.inv h
  have hL : HasDerivAt (fun t : Real => 2 * a1c + 2 * a2c * (t + c22))
      (2 * a2c * 1) c11 :=
    (((hasDerivAt_id c11).add_const c22).const_mul (2 * a2c)).const_add (2 * a1c)
  have hS := (((hg.mul hL).neg.mul_const c22).mul hg).add_const (2 * a1c)
    |>.add ((hg.const_add c22).const_mul (2 * a2c))
  refine HasDerivAt.congr_deriv hS ?_
  simp only [membrane_tangent, id_eq]
  field_simp
  ring

/-- Derivative in C11 along the closure of the second stress component. -/
theorem hasDerivAt_S1_c11 (a1c a2c c11 c12 c22 : Real)
    (h : c11 * c22 - c12 ^ 2 ≠ 0) :
    HasDerivAt
      (fun t : Real => membrane_stress a1c a2c t c12 c22 ((t * c22 - c12 ^ 2)⁻¹) 1)
      (membrane_tangent a1c a2c c11 c12 c22 ((c11 * c22 - c12 ^ 2)⁻¹) 1 0 / 2)
      c11 := by
  have hJ : HasDerivAt (fun t : Real => t * c22 - c12 ^ 2) (1 * c22) c11 :=
    ((hasDerivAt_id c11).mul_const c22).sub_const (c12 ^ 2)
  have hg := hJ.inv h
  have hL : HasDerivAt (fun t : Real => 2 * a1c + 2 * a2c * (t + c22))
      (2 * a2c * 1) c11 :=
    (((hasDerivAt_id c11).add_const c22).const_mul (2 * a2c)).const_add (2 * a1c)
  have hS := (((hg.mul hL).neg.mul (hasDerivAt_id c11)).mul hg).add_const (2 * a1c)
    |>.add (((hasDerivAt_id c11).add hg).const_mul (2 * a2c))
  refine HasDerivAt.congr_deriv hS ?_
  simp only [membrane_tangent, id_eq]
  field_simp
  ring

/-- Derivative in C11 along the closure of the shear stress component. -/
theorem hasDerivAt_S2_c11 (a1c a2c c11 c12 c22 : Real)
    (h : c11 * c22 - c12 ^ 2 ≠ 0) :
    HasDerivAt
      (fun t : Real => membrane_stress a1c a2c t c12 c22 ((t * c22 - c12 ^ 2)⁻¹) 2)
      (membrane_tangent a1c a2c c11 c12 c22 ((c11 * c22 - c12 ^ 2)⁻¹) 2 0 / 2)
      c11 := by
  have hJ : HasDerivAt (fun t : Real => t * c22 - c12 ^ 2) (1 * c22) c11 :=
    ((hasDerivAt_id c11).mul_const c22).sub_const (c12 ^ 2)
  have hg := hJ.inv h
  have hL : HasDerivAt (fun t : Real => 2 * a1c + 2 * a2c * (t + c22))
      (2 * a2c * 1) c11 :=
    (((hasDerivAt_id c11).add_const c22).const_mul (2 * a2c)).const_add (2 * a1c)
  have hS := (((hg.mul hL).mul_const c12).mul hg).sub_const (2 * a2c * c12)
  refine HasDerivAt.congr_deriv hS ?_
  simp only [membrane_tangent, id_eq]
  field_simp
  ring

/-- Derivative in C22 along the closure of the first stress component. -/
theorem hasDerivAt_S0_c22 (a1c a2c c11 c12 c22 : Real)
    (h : c11 * c22 - c12 ^ 2 ≠ 0) :
    HasDerivAt
      (fun t : Real => membrane_stress a1c a2c c11 c12 t ((c11 * t - c12 ^ 2)⁻¹) 0)
      (membrane_tangent a1c a2c c11 c12 c22 ((c11 * c22 - c12 ^ 2)⁻¹) 0 1 / 2)
      c22 := by
  have hJ : HasDerivAt (fun t : Real => c11 * t - c12 ^ 2) (c11 * 1) c22 :=
    (((hasDerivAt_id c22).const_mul c11)).sub_const (c12 ^ 2)
  have hg := hJ.inv h
  have hL : HasDerivAt (fun t : Real => 2 * a1c + 2 * a2c * (c11 + t))
      (2 * a2c * 1) c22 :=
    (((hasDerivAt_id c22).const_add c11).const_mul (2 * a2c)).const_add (2 * a1c)
  have hS := (((hg.mul hL).neg.mul (hasDerivAt_id c22)).mul hg).add_const (2 * a1c)
    |>.add (((hasDerivAt_id c22).add hg).const_mul (2 * a2c))
  refine HasDerivAt.congr_deriv hS ?_
  simp only [membrane_tangent, id_eq]
  field_simp
  ring

/-- Derivative in C22 along the closure of the second stress component. -/
theorem hasDerivAt_S1_c22 (a1c a2c c11 c12 c22 : Real)
    (h : c11 * c22 - c12 ^ 2 ≠ 0) :
    HasDerivAt
      (fun t : Real => membrane_stress a1c a2c c11 c12 t ((c11 * t - c12 ^ 2)⁻¹) 1)
      (membrane_tangent a1c a2c c11 c12 c22 ((c11 * c22 - c12 ^ 2)⁻¹) 1 1 / 2)
      c22 := by
  have hJ : HasDerivAt (fun t : Real => c11 * t - c12 ^ 2) (c11 * 1) c22 :=
    (((hasDerivAt_id c22).const_mul c11)).sub_const (c12 ^ 2)
  have hg := hJ.inv h
  have hL : HasDerivAt (fun t : Real => 2 * a1c + 2 * a2c * (c11 + t))
      (2 * a2c * 1) c22 :=
    (((hasDerivAt_id c22).const_add c11).const_mul (2 * a2c)).const_add (2 * a1c)
  have hS := (((hg.mul hL).neg.mul_const c11).mul hg).add_const (2 * a1c)
    |>.add ((hg.const_add c11).const_mul (2 * a2c))
  refine HasDerivAt.congr_deriv hS ?_
  simp only [membrane_tangent, id_eq]
  field_simp
  ring

/-- Derivative in C22 along the closure of the shear stress component. -/
theorem hasDerivAt_S2_c22 (a1c a2c c11 c12 c22 : Real)
    (h : c11 * c22 - c12 ^ 2 ≠ 0) :
    HasDerivAt
      (fun t : Real => membrane_stress a1c a2c c11 c12 t ((c11 * t - c12 ^ 2)⁻¹) 2)
      (membrane_tangent a1c a2c c11 c12 c22 ((c11 * c22 - c12 ^ 2)⁻¹) 2 1 / 2)
      c22 := by
  have hJ : HasDerivAt (fun t : Real => c11 * t - c12 ^ 2) (c11 * 1) c22 :=
    (((hasDerivAt_id c22).const_mul c11)).sub_const (c12 ^ 2)
  have hg := hJ.inv h
  have hL : HasDerivAt (fun t : Real => 2 * a1c + 2 * a2c * (c11 + t))
      (2 * a2c * 1) c22 :=
    (((hasDerivAt_id c22).const_add c11).const_mul (2 * a2c)).const_add (2 * a1c)
  have hS := (((hg.mul hL).mul_const c12).mul hg).sub_const (2 * a2c * c12)
  refine HasDerivAt.congr_deriv hS ?_
  simp only [membrane_tangent, id_eq]
  field_simp
  ring

/-- Derivative in C12 along the closure of the first stress component. -/
theorem hasDerivAt_S0_c12 (a1c a2c c11 c12 c22 : Real)
    (h : c11 * c22 - c12 ^ 2 ≠ 0) :
    HasDerivAt
      (fun t : Real => membrane_stress a1c a2c c11 t c22 ((c11 * c22 - t ^ 2)⁻¹) 0)
      (membrane_tangent a1c a2c c11 c12 c22 ((c11 * c22 - c12 ^ 2)⁻¹) 0 2)
      c12 := by
  have hJ : HasDerivAt (fun t : Real => c11 * c22 - t ^ 2)
      (-((2 : Nat) * c12 ^ (2 - 1))) c12 :=
    (hasDerivAt_pow 2 c12).const_sub (c11 * c22)
  have hg := hJ.inv h
  have hp := hg.mul_const (2 * a1c + 2 * a2c * (c11 + c22))
  have hS := ((hp.neg.mul_const c22).mul hg).add_const (2 * a1c)
    |>.add ((hg.const_add c22).const_mul (2 * a2c))
  refine HasDerivAt.congr_deriv hS ?_
  simp only [membrane_tangent, id_eq]
  push_cast
  field_simp
  ring

/-- Derivative in C12 along the closure of the second stress component. -/
theorem hasDerivAt_S1_c12 (a1c a2c c11 c12 c22 : Real)
    (h : c11 * c22 - c12 ^ 2 ≠ 0) :
    HasDerivAt
      (fun t : Real => membrane_stress a1c a2c c11 t c22 ((c11 * c22 - t ^ 2)⁻¹) 1)
      (membrane_tangent a1c a2c c11 c12 c22 ((c11 * c22 - c12 ^ 2)⁻¹) 1 2)
      c12 := by
  have hJ : HasDerivAt (fun t : Real => c11 * c22 - t ^ 2)
      (-((2 : Nat) * c12 ^ (2 - 1))) c12 :=
    (hasDerivAt_pow 2 c12).const_sub (c11 * c22)
  have hg := hJ.inv h
  have hp := hg.mul_const (2 * a1c + 2 * a2c * (c11 + c22))
  have hS := ((hp.neg.mul_const c11).mul hg).add_const (2 * a1c)
    |>.add ((hg.const_add c11).const_mul (2 * a2c))
  refine HasDerivAt.congr_deriv hS ?_
  simp only [membrane_tangent, id_eq]
  push_cast
  field_simp
  ring

/-- Derivative in C12 along the closure of the shear stress component. -/
theorem hasDerivAt_S2_c12 (a1c a2c c11 c12 c22 : Real)
    (h : c11 * c22 - c12 ^ 2 ≠ 0) :
    HasDerivAt
      (fun t : Real => membrane_stress a1c a2c c11 t c22 ((c11 * c22 - t ^ 2)⁻¹) 2)
      (membrane_tangent a1c a2c c11 c12 c22 ((c11 * c22 - c12 ^ 2)⁻¹) 2 2)
      c12 := by
  have hJ : HasDerivAt (fun t : Real => c11 * c22 - t ^ 2)
      (-((2 : Nat) * c12 ^ (2 - 1))) c12 :=
    (hasDerivAt_pow 2 c12).const_sub (c11 * c22)
  have hg := hJ.inv h
  have hp := hg.mul_const (2 * a1c + 2 * a2c * (c11 + c22))
  have hS := ((hp.mul (hasDerivAt_id c12)).mul hg).sub
    ((hasDerivAt_id c12).const_mul (2 * a2c))
  refine HasDerivAt.congr_deriv hS ?_
  simp only [membrane_tangent, id_eq]
  push_cast
  field_simp
  ring

/-- C2 (amended): with c33 equal to the plane-stress closure value
1/(C11*C22 - C12^2), the mode-1 tangent is the Jacobian of the mode-0
stress with respect to the packed Green-strain components (E11, E22, 2*E12)
taken ALONG the closure (c33 varying with mtx_c, not held fixed):
D[i][0] = 2*dS[i]/dC11, D[i][1] = 2*dS[i]/dC22, D[i][2] = dS[i]/dC12. -/
theorem mr_tangent_is_strain_jacobian (a1c a2c c11 c12 c22 : Real)
    (h : c11 * c22 - c12 ^ 2 ≠ 0) (i : Fin 3) :
    HasDerivAt
      (fun t : Real => membrane_stress a1c a2c t c12 c22 ((t * c22 - c12 ^ 2)⁻¹) i)
      (membrane_tangent a1c a2c c11 c12 c22 ((c11 * c22 - c12 ^ 2)⁻¹) i 0 / 2)
      c11 ∧
    HasDerivAt
      (fun t : Real => membrane_stress a1c a2c c11 c12 t ((c11 * t - c12 ^ 2)⁻¹) i)
      (membrane_tangent a1c a2c c11 c12 c22 ((c11 * c22 - c12 ^ 2)⁻¹) i 1 / 2)
      c22 ∧
    HasDerivAt
      (fun t : Real => membrane_stress a1c a2c c11 t c22 ((c11 * c22 - t ^ 2)⁻¹) i)
      (membrane_tangent a1c a2c c11 c12 c22 ((c11 * c22 - c12 ^ 2)⁻¹) i 2)
      c12 := by
  fin_cases i
  · exact ⟨hasDerivAt_S0_c11 a1c a2c c11 c12 c22 h,
      hasDerivAt_S0_c22 a1c a2c c11 c12 c22 h,
      hasDerivAt_S0_c12 a1c a2c c11 c12 c22 h⟩
  · exact ⟨hasDerivAt_S1_c11 a1c a2c c11 c12 c22 h,
      hasDerivAt_S1_c22 a1c a2c c11 c12 c22 h,
      hasDerivAt_S1_c12 a1c a2c c11 c12 c22 h⟩
  · exact ⟨hasDerivAt_S2_c11 a1c a2c c11 c12 c22 h,
      hasDerivAt_S2_c22 a1c a2c c11 c12 c22 h,
      hasDerivAt_S2_c12 a1c a2c c11 c12 c22 h⟩

/-- Witness for the amended C2 at the concrete state a1 = 1, a2 = 1,
C11 = 2, C12 = 0, C22 = 1 (closure c33 = 1/2), component S11. -/
theorem mr_tangent_is_strain_jacobian_witness :
    ((2 : Real) * 1 - 0 ^ 2 ≠ 0) ∧
    HasDerivAt
      (fun t : Real => membrane_stress 1 1 t 0 1 ((t * 1 - 0 ^ 2)⁻¹) 0)
      (membrane_tangent 1 1 2 0 1 ((2 * 1 - 0 ^ 2)⁻¹) 0 0 / 2) 2 :=
  ⟨by norm_num, (mr_tangent_is_strain_jacobian 1 1 2 0 1 (by norm_num) 0).1⟩

end TangentJacobian

end SfepyMembrane
